import Mathlib

/-!
Shallow embedding of the policy-driven scoring and decision-drafting core of
the Autonomous BI Agent prototype (file `autonomous_bi_agent_app.py`).

Numeric dataframe cells are modelled as `Option Rat`: `none` plays the role of
a missing value / IEEE NaN (pandas represents a missing numeric cell by NaN),
and the `v*` operations below propagate `none` exactly as float arithmetic
propagates NaN.  Comparisons against NaN are false, while `NaN != 0` is true,
matching Python semantics.  Exact rational arithmetic stands in for float
arithmetic; the claims under study are about formulas, fallbacks and control
flow, not about rounding.
-/

set_option maxRecDepth 100000

set_option allowUnsafeReducibility true

attribute [local semireducible] Rat.add Rat.mul Rat.inv Rat.sub Rat.neg Rat.div

namespace BIAgent

/-- A dataframe cell: `none` models a missing value (NaN). -/
abbrev Val := Option ℚ

/-- NaN-propagating addition. -/
def vadd : Val → Val → Val
  | some a, some b => some (a + b)
  | _, _ => none

/-- NaN-propagating subtraction. -/
def vsub : Val → Val → Val
  | some a, some b => some (a - b)
  | _, _ => none

/-- NaN-propagating multiplication. -/
def vmul : Val → Val → Val
  | some a, some b => some (a * b)
  | _, _ => none

/-- NaN-propagating absolute value. -/
def vabs : Val → Val
  | some a => some |a|
  | none => none

/-- NaN-propagating division.  In every use in the script the divisor is
strictly positive when present (it has the shape `abs base + 1e-9`), so the
zero-divisor branch is never exercised; it is mapped to `none` for totality. -/
def vdiv : Val → Val → Val
  | some a, some b => if b = 0 then none else some (a / b)
  | _, _ => none

/-- Python `x >= c` on a possibly-NaN left operand: NaN comparisons are false. -/
def vge (x : Val) (c : ℚ) : Bool :=
  match x with
  | some a => decide (c ≤ a)
  | none => false

/-- Python `x != 0` on a possibly-NaN operand: `NaN != 0` is true. -/
def vne0 (x : Val) : Bool :=
  match x with
  | some a => decide (a ≠ 0)
  | none => true

/-- The fixed epsilon `1e-9` appearing throughout the script. -/
def eps : ℚ := 1 / 1000000000

/-- Median of a list of rationals, as pandas computes it on the present
values: sort ascending, take the middle element for odd length and the mean of
the two middle elements for even length. -/
def medianQ (l : List ℚ) : ℚ :=
  let s := l.insertionSort (· ≤ ·)
  if l.length % 2 = 1 then s.getD (l.length / 2) 0
  else (s.getD (l.length / 2 - 1) 0 + s.getD (l.length / 2) 0) / 2

/-- pandas `Series.median()`: NaN entries are skipped; the median of a column
with no present value is NaN. -/
def vmedian (col : List Val) : Val :=
  let present := col.filterMap id
  if present.isEmpty then none else some (medianQ present)

/-- pandas `Series.min()` on a nonempty series (the script only takes minima
of the nonempty anomaly-score array); `0` on the empty list, never used. -/
def minQ : List ℚ → ℚ
  | [] => 0
  | x :: xs => xs.foldl min x

/-- pandas `Series.max()` on a nonempty series; `0` on the empty list. -/
def maxQ : List ℚ → ℚ
  | [] => 0
  | x :: xs => xs.foldl max x

/-- The numeric part of the uploaded dataframe: the column names of
`df.select_dtypes(include=[int64, float64])` together with the rows restricted
to those columns.  Non-numeric columns never influence the engine (the metric
is always chosen among the numeric columns, and segment columns are
informational only), so they are not represented. -/
structure Dataset where
  cols : List String
  rows : List (List Val)
  deriving DecidableEq

/-- The column of a dataset at a positional index. -/
def Dataset.colAt (d : Dataset) (i : ℕ) : List Val :=
  d.rows.map (fun r => r.getD i none)

/-- Column lookup by name, `df[c]`; `none` when the name is not a column
(`c in df.columns` is false). -/
def Dataset.col? (d : Dataset) (c : String) : Option (List Val) :=
  (d.cols.indexOf? c).map d.colAt

/-- Per-column imputation `col.fillna(col.median())` (line 76 of the script):
a missing cell becomes the median of the present cells of the same column.
When the column has no present cell its median is NaN and `fillna` leaves the
cells NaN. -/
def fillCol (col : List Val) : List Val :=
  let m := vmedian col
  col.map (fun v => match v with | some a => some a | none => m)

/-- The imputed feature matrix `X = df[numeric_cols].fillna(df[numeric_cols].median())`,
row-major. -/
def featureMatrix (d : Dataset) : List (List Val) :=
  let filled := (List.range d.cols.length).map (fun i => fillCol (d.colAt i))
  (List.range d.rows.length).map (fun r => filled.map (fun col => col.getD r none))

/-- Abstract outlier-scoring capability: given the imputed numeric matrix it
either raises (any exception out of `IsolationForest.fit` or
`decision_function`) or returns the negated decision-function values
`-iso.decision_function(X)`, one raw anomaly magnitude per row (higher means
more anomalous).  The model ingredient that is not in the repository is the
isolation forest itself; everything around it is embedded from the script. -/
abbrev Scorer := List (List ℚ) → Except String (List ℚ)

/-- Running the capability on a dataset: sklearn input validation rejects a
matrix that still contains NaN (which happens exactly when some numeric column
has no present value, so that `fillna` left it NaN), raising before fitting;
otherwise the abstract scorer decides success or failure. -/
def runScorer (scorer : Scorer) (d : Dataset) : Except String (List ℚ) :=
  let X := featureMatrix d
  if X.any (fun row => row.any (fun v => v.isNone)) then
    Except.error "Input contains NaN"
  else scorer (X.map (fun row => row.filterMap id))

/-- The policy dictionary after YAML parsing, restricted to the keys the
engine reads.  A `none` in an optional field models an absent key, for which
the corresponding `.get(key, default)` in the script yields the default.
`disallow` is `constraints.disallow` from the policy document; the engine code
contains no read of it (the identifier occurs only inside the default policy
text), which is what claim C1 is about. -/
structure Policy where
  actions? : Option (List String)
  disallow : List String
  high? : Option ℚ
  med? : Option ℚ
  impactMin? : Option ℚ
  wImpact? : Option ℚ
  wConf? : Option ℚ
  deriving DecidableEq

/-- `policy.get("ranking", {}).get("weight_impact", 0.7)`. -/
def wImpact (p : Policy) : ℚ := p.wImpact?.getD (7 / 10)

/-- `policy.get("ranking", {}).get("weight_confidence", 0.3)`. -/
def wConf (p : Policy) : ℚ := p.wConf?.getD (3 / 10)

/-- `thresholds.anomaly_confidence.get("high", 0.8)`. -/
def highThr (p : Policy) : ℚ := p.high?.getD (8 / 10)

/-- `thresholds.anomaly_confidence.get("medium", 0.6)`. -/
def medThr (p : Policy) : ℚ := p.med?.getD (6 / 10)

/-- `thresholds.get("impact_minimum", 0.02)`. -/
def impactMin (p : Policy) : ℚ := p.impactMin?.getD (2 / 100)

/-- `policy.get("actions", ["draft_alert", "draft_task"])`. -/
def actionsOf (p : Policy) : List String :=
  p.actions?.getD ["draft_alert", "draft_task"]

/-- The policy value produced when the YAML text fails to parse or is empty:
`policy = {}`, every lookup takes its default. -/
def emptyPolicy : Policy := ⟨none, [], none, none, none, none, none⟩

/-- Outcome of the pattern-discovery block (lines 71 to 86): either the column
`anomaly_score` was assigned (with the warnings shown on the way), or the
exception handler ran and the column was never assigned, or the column
assignment itself raised because the scorer returned a wrongly-sized array. -/
inductive AnomalyOutcome where
  | set (anomaly : List ℚ) (warnings : List String)
  | unset (warning : String)
  | lengthError (msg : String)
  deriving DecidableEq

/-- Warning text of line 85 (`st.info`). -/
def degradedInfo : String :=
  "sklearn not available or too few rows — skipping advanced anomaly detection."

/-- The exception raised by assigning a column from an array whose length does
not match the dataframe. -/
def lengthErrMsg : String :=
  "ValueError: Length of values does not match length of index"

/-- The exception raised on line 101 when `df[anomaly_score]` is read although
the column was never assigned. -/
def keyErrorMsg : String := "KeyError: anomaly_score"

/-- Lines 72 to 86: when sklearn is available and the frame has at least 20
rows, fit and score, normalising the raw scores by
`(scores - scores.min()) / (scores.max() - scores.min() + 1e-9)`; a raised
exception is caught and only warned about, leaving the column unassigned.
Otherwise assign a constant `0.0` column. -/
def anomalyStage (sklearnOk : Bool) (scorer : Scorer) (d : Dataset) : AnomalyOutcome :=
  if sklearnOk = true ∧ 20 ≤ d.rows.length then
    match runScorer scorer d with
    | Except.ok scores =>
      if scores.length = d.rows.length then
        AnomalyOutcome.set
          (scores.map (fun s => (s - minQ scores) / (maxQ scores - minQ scores + eps))) []
      else AnomalyOutcome.lengthError lengthErrMsg
    | Except.error e => AnomalyOutcome.unset ("Anomaly detection skipped: " ++ e)
  else AnomalyOutcome.set (d.rows.map (fun _ => 0)) [degradedInfo]

/-- Lines 89 to 96: the impact proxy.  With the metric column present,
`base = df[metric].median() if df[metric].median() != 0 else (df[metric].abs().median() + 1e-9)`
and per row `(value - base) / (abs(base) + 1e-9)`; with the metric column
absent, a constant `0.0` column. -/
def impactStage (d : Dataset) (metric : String) : List Val :=
  match d.col? metric with
  | some col =>
    let m := vmedian col
    let base := if vne0 m then m else vadd (vmedian (col.map vabs)) (some eps)
    col.map (fun v => vdiv (vsub v base) (vadd (vabs base) (some eps)))
  | none => List.replicate d.rows.length (some 0)

/-- Line 101: `df[score] = w_impact * df[impact_proxy].abs() + w_conf * df[anomaly_score]`. -/
def scoreStage (p : Policy) (anomaly : List ℚ) (impact : List Val) : List Val :=
  List.zipWith
    (fun ip a => vadd (vmul (some (wImpact p)) (vabs ip)) (some (wConf p * a)))
    impact anomaly

/-- Confidence bands. -/
inductive Band where
  | High
  | Medium
  | Low
  deriving DecidableEq

/-- Lines 109 to 112: the banding function over the policy thresholds. -/
def band (p : Policy) (x : ℚ) : Band :=
  if highThr p ≤ x then Band.High
  else if medThr p ≤ x then Band.Medium
  else Band.Low

/-- Line 118, `df.sort_values(score, ascending=False)`, returning the row
indices in output order.  pandas separates the NaN keys (they go last,
`na_position` defaults to `last`), reverses the remaining index array,
argsorts it ascending with the selected kind, and reverses the result.  The
kernel here is a stable sort; this coincides with the default quicksort kind
whenever fewer than 17 keys are sorted (numpy runs plain insertion sort below
that size) and with kind `stable` in general. -/
def sortValuesDesc (score : List Val) : List ℕ :=
  let idx := List.range score.length
  let nonNan := idx.filterMap (fun i => (score.getD i none).map (fun q => (i, q)))
  let nanIdx := idx.filter (fun i => (score.getD i none).isNone)
  let sorted := (nonNan.reverse).insertionSort (fun a b => a.2 ≤ b.2)
  ((sorted.map Prod.fst).reverse) ++ nanIdx

/-- Lines 117 to 118: `top = df.sort_values(score, ascending=False).head(top_n)`. -/
def topStage (score : List Val) (topN : ℕ) : List ℕ :=
  (sortValuesDesc score).take topN

/-- A drafted proposal: the action kind it was appended for, and the template
text appended by the script (before the `.format(metric=metric)` display
substitution, which does not change the kind). -/
structure Proposal where
  kind : String
  text : String
  deriving DecidableEq

/-- Template of line 135. -/
def alertText : String :=
  "Alert: Potential shift detected in {metric}. Please review attached rows and confidence band."

/-- Template of line 137. -/
def taskText : String :=
  "Task: Investigate drivers for the shift; segment analysis and validate data quality."

/-- Template of line 139. -/
def obsText : String :=
  "Observation only: below impact threshold; monitoring continues."

/-- Lines 131 to 139: the decision drafter for one selected row, given the
impact proxy of that row.  Note that the actions list is read with
`policy.get("actions", [...])` and that `constraints.disallow` is not
consulted anywhere. -/
def draftProposals (p : Policy) (ip : Val) : List Proposal :=
  let actions := actionsOf p
  if vge (vabs ip) (impactMin p) then
    (if actions.contains "draft_alert" then [⟨"draft_alert", alertText⟩] else []) ++
    (if actions.contains "draft_task" then [⟨"draft_task", taskText⟩] else [])
  else [⟨"observation", obsText⟩]

/-- The derived columns and outputs of one completed run. -/
structure RunOutput where
  warnings : List String
  anomaly : List ℚ
  impact : List Val
  score : List Val
  bands : List Band
  top : List ℕ
  proposals : List (ℕ × List Proposal)
  deriving DecidableEq

/-- Assembling the outputs once the anomaly column is in place: impact column,
composite score, bands, top-K selection, and one drafted proposal list per
selected row (lines 89 to 139). -/
def assemble (p : Policy) (d : Dataset) (metric : String) (topN : ℕ)
    (anomaly : List ℚ) (warns : List String) : RunOutput :=
  let impact := impactStage d metric
  let score := scoreStage p anomaly impact
  ⟨warns, anomaly, impact, score, anomaly.map (band p), topStage score topN,
    (topStage score topN).map (fun i => (i, draftProposals p (impact.getD i none)))⟩

/-- Result of one run of the engine on an uploaded dataset. -/
inductive RunResult where
  | skipped (warning : String)
  | crashed (msg : String)
  | done (out : RunOutput)
  deriving DecidableEq

/-- Warning of line 65. -/
def warnNoNumeric : String :=
  "No numeric columns found; please upload a dataset with metrics."

/-- The engine, lines 63 to 143: skip with a warning when there is no numeric
column; otherwise run pattern discovery, impact scoring, ranking, banding and
drafting.  When the anomaly block caught an exception and left the column
unassigned, the read of `df[anomaly_score]` on line 101 raises `KeyError` and
the run aborts. -/
def runPipeline (sklearnOk : Bool) (scorer : Scorer) (d : Dataset) (metric : String)
    (topN : ℕ) (p : Policy) : RunResult :=
  if d.cols.isEmpty then RunResult.skipped warnNoNumeric
  else
    match anomalyStage sklearnOk scorer d with
    | AnomalyOutcome.unset _ => RunResult.crashed keyErrorMsg
    | AnomalyOutcome.lengthError m => RunResult.crashed m
    | AnomalyOutcome.set anomaly warns =>
      RunResult.done (assemble p d metric topN anomaly warns)

/-- The output of a completed run, with a dummy default for the other cases. -/
def RunResult.outD : RunResult → RunOutput
  | RunResult.done o => o
  | _ => ⟨[], [], [], [], [], [], []⟩

/-- All action kinds appearing in the proposals of a run. -/
def RunResult.kindsOf : RunResult → List String
  | RunResult.done o => (o.proposals.map (fun pr => pr.2.map Proposal.kind)).flatten
  | _ => []

/-- The spec-side baseline formula for a fully-present metric column (used to
state claim C7 against the code-side `impactStage`). -/
def baseQ (qs : List ℚ) : ℚ :=
  if medianQ qs ≠ 0 then medianQ qs else medianQ (qs.map (fun x => |x|)) + eps

/-- The largest absolute impact proxy of a run (over present values). -/
def impactCap (o : RunOutput) : ℚ :=
  maxQ ((o.impact.filterMap id).map (fun q => |q|))

/-- A scorer that always raises; also used where the capability is absent and
the scorer is never consulted. -/
def noScorer : Scorer := fun _ => Except.error "sklearn unavailable"

/-- Two-row dataset, one numeric column `m` with values 0 and 10: the median
is 5, both impact proxies have absolute value `5 / (5 + 1e-9)`, far above the
default impact minimum, so both rows are actionable. -/
def dPair : Dataset := ⟨["m"], [[some 0], [some 10]]⟩

/-- Twenty-row dataset, one numeric column `m` with values 0 to 19; enough
rows for the preferred anomaly path. -/
def dTwenty : Dataset := ⟨["m"], (List.range 20).map (fun i => [some ((i : ℚ))])⟩

/-- One-row dataset whose only numeric column is entirely missing. -/
def dMissing : Dataset := ⟨["m"], [[none]]⟩

/-- Policy that disallows `draft_task` while the actions default keeps it. -/
def polDisallowTask : Policy := { emptyPolicy with disallow := ["draft_task"] }

/-- Policy whose requested actions contain no recognised kind. -/
def polUnrecognized : Policy := { emptyPolicy with actions? := some ["delete_records"] }

/-- Structurally malformed policy: a negative ranking weight. -/
def polNegWeight : Policy := { emptyPolicy with wImpact? := some (-1) }

/-- Policy listing `draft_task` before `draft_alert`, with an unknown kind in
between. -/
def polMixedActions : Policy :=
  { emptyPolicy with actions? := some ["draft_task", "delete_records", "draft_alert"] }

/-- A scorer returning one raw score per row (the sum of the row), used to
exercise the preferred anomaly path in witnesses. -/
def sumScorer : Scorer := fun X => Except.ok (X.map (fun row => row.foldl (fun a b => a + b) 0))

/-! ## Helper lemmas -/

theorem eps_pos : (0 : ℚ) < eps := by norm_num [eps]

theorem foldl_min_le (l : List ℚ) (a : ℚ) : l.foldl min a ≤ a := by
  induction l generalizing a with
  | nil => exact le_refl a
  | cons x xs ih => exact (ih (min a x)).trans (min_le_left a x)

theorem foldl_min_le_mem (l : List ℚ) (a : ℚ) : ∀ x ∈ l, l.foldl min a ≤ x := by
  induction l generalizing a with
  | nil => intro x hx; cases hx
  | cons y ys ih =>
    intro x hx
    cases hx with
    | head => exact (foldl_min_le ys (min a y)).trans (min_le_right a y)
    | tail _ hx => exact ih (min a y) x hx

theorem minQ_le {l : List ℚ} {x : ℚ} (hx : x ∈ l) : minQ l ≤ x := by
  cases l with
  | nil => cases hx
  | cons y ys =>
    cases hx with
    | head => exact foldl_min_le ys x
    | tail _ h => exact foldl_min_le_mem ys y x h

theorem le_foldl_max (l : List ℚ) (a : ℚ) : a ≤ l.foldl max a := by
  induction l generalizing a with
  | nil => exact le_refl a
  | cons x xs ih => exact (le_max_left a x).trans (ih (max a x))

theorem mem_le_foldl_max (l : List ℚ) (a : ℚ) : ∀ x ∈ l, x ≤ l.foldl max a := by
  induction l generalizing a with
  | nil => intro x hx; cases hx
  | cons y ys ih =>
    intro x hx
    cases hx with
    | head => exact (le_max_right a y).trans (le_foldl_max ys (max a y))
    | tail _ hx => exact ih (max a y) x hx

theorem le_maxQ {l : List ℚ} {x : ℚ} (hx : x ∈ l) : x ≤ maxQ l := by
  cases l with
  | nil => cases hx
  | cons y ys =>
    cases hx with
    | head => exact le_foldl_max ys x
    | tail _ h => exact mem_le_foldl_max ys y x h

theorem mem_zipWith {α β γ : Type} {f : α → β → γ} :
    ∀ {l1 : List α} {l2 : List β} {x : γ}, x ∈ List.zipWith f l1 l2 →
      ∃ a b, a ∈ l1 ∧ b ∈ l2 ∧ x = f a b := by
  intro l1
  induction l1 with
  | nil => intro l2 x hx; simp [List.zipWith] at hx
  | cons a l1 ih =>
    intro l2 x hx
    cases l2 with
    | nil => simp [List.zipWith] at hx
    | cons b l2 =>
      rw [List.zipWith_cons_cons] at hx
      cases hx with
      | head => exact ⟨a, b, List.mem_cons_self a l1, List.mem_cons_self b l2, rfl⟩
      | tail _ hx =>
        obtain ⟨a2, b2, h1, h2, rfl⟩ := ih hx
        exact ⟨a2, b2, List.mem_cons_of_mem a h1, List.mem_cons_of_mem b h2, rfl⟩

theorem zipWith_replicate_right {α β γ : Type} (f : α → β → γ) (c : β) :
    ∀ l : List α, List.zipWith f l (List.replicate l.length c) = l.map (fun x => f x c)
  | [] => rfl
  | x :: xs => by
    simp only [List.length_cons, List.replicate_succ, List.zipWith_cons_cons, List.map_cons]
    rw [zipWith_replicate_right f c xs]

theorem map_const_zero (l : List (List Val)) :
    l.map (fun _ => (0 : ℚ)) = List.replicate l.length 0 := by
  induction l with
  | nil => rfl
  | cons x xs ih => simp [List.replicate_succ, ih]

theorem colAt_length (d : Dataset) (i : ℕ) : (d.colAt i).length = d.rows.length := by
  simp [Dataset.colAt]

theorem col?_length {d : Dataset} {metric : String} {col : List Val}
    (hcol : d.col? metric = some col) : col.length = d.rows.length := by
  unfold Dataset.col? at hcol
  obtain ⟨i, _, rfl⟩ := Option.map_eq_some'.1 hcol
  exact colAt_length d i

theorem impactStage_length (d : Dataset) (metric : String) :
    (impactStage d metric).length = d.rows.length := by
  unfold impactStage
  cases hcol : d.col? metric with
  | none => simp
  | some col => simp [col?_length hcol]

theorem all_some_exists {col : List Val} (h : col.all Option.isSome = true) :
    ∃ qs : List ℚ, col = qs.map some := by
  induction col with
  | nil => exact ⟨[], rfl⟩
  | cons v vs ih =>
    rw [List.all_cons, Bool.and_eq_true] at h
    obtain ⟨qs, rfl⟩ := ih h.2
    cases v with
    | none => simp [Option.isSome] at h
    | some q => exact ⟨q :: qs, rfl⟩

theorem filterMap_id_map_some (qs : List ℚ) : (qs.map some).filterMap id = qs := by
  induction qs with
  | nil => rfl
  | cons q qs ih => simp [List.filterMap_cons, ih]

theorem vmedian_map_some {qs : List ℚ} (h : qs ≠ []) :
    vmedian (qs.map some) = some (medianQ qs) := by
  unfold vmedian
  rw [filterMap_id_map_some]
  simp [h]

theorem baseOf_map_some {qs : List ℚ} (hne : qs ≠ []) :
    (if vne0 (vmedian (qs.map some)) = true then vmedian (qs.map some)
     else vadd (vmedian ((qs.map some).map vabs)) (some eps)) = some (baseQ qs) := by
  rw [vmedian_map_some hne]
  by_cases hz : medianQ qs = 0
  · have hcond : vne0 (some (medianQ qs)) = false := by simp [vne0, hz]
    rw [hcond]
    have hmap : (qs.map some).map vabs = (qs.map (fun x => |x|)).map some := by
      simp only [List.map_map]
      rfl
    rw [if_neg (by simp), hmap,
      vmedian_map_some (fun hb => hne (List.map_eq_nil_iff.1 hb))]
    simp [vadd, baseQ, hz]
  · have hcond : vne0 (some (medianQ qs)) = true := by simp [vne0, hz]
    rw [hcond, if_pos rfl]
    simp [baseQ, hz]

theorem abs_base_eps_pos (b : ℚ) : 0 < |b| + eps :=
  add_pos_of_nonneg_of_pos (abs_nonneg b) eps_pos

theorem impactStage_map_some {d : Dataset} {metric : String} {qs : List ℚ} (hne : qs ≠ [])
    (hcol : d.col? metric = some (qs.map some)) :
    impactStage d metric = qs.map (fun v => some ((v - baseQ qs) / (|baseQ qs| + eps))) := by
  unfold impactStage
  rw [hcol]
  dsimp only
  rw [baseOf_map_some hne, List.map_map]
  congr 1
  funext q
  have hpos := abs_base_eps_pos (baseQ qs)
  simp [Function.comp, vdiv, vsub, vabs, vadd, ne_of_gt hpos]

theorem impact_present {d : Dataset} {metric : String}
    (hm : ((d.col? metric).getD []).all Option.isSome = true) :
    ∀ ip ∈ impactStage d metric, ∃ q : ℚ, ip = some q := by
  intro ip hip
  cases hcol : d.col? metric with
  | none =>
    unfold impactStage at hip
    rw [hcol] at hip
    exact ⟨0, List.eq_of_mem_replicate hip⟩
  | some col =>
    rw [hcol] at hm
    simp only [Option.getD_some] at hm
    obtain ⟨qs, rfl⟩ := all_some_exists hm
    cases qs with
    | nil =>
      unfold impactStage at hip
      rw [hcol] at hip
      simp at hip
    | cons q0 qs0 =>
      rw [impactStage_map_some (List.cons_ne_nil q0 qs0) hcol] at hip
      obtain ⟨v, _, rfl⟩ := List.mem_map.1 hip
      exact ⟨_, rfl⟩

theorem anomalyStage_degraded {skl : Bool} (scorer : Scorer) (d : Dataset)
    (hdeg : skl = false ∨ d.rows.length < 20) :
    anomalyStage skl scorer d = AnomalyOutcome.set (d.rows.map (fun _ => 0)) [degradedInfo] := by
  unfold anomalyStage
  rw [if_neg]
  rintro ⟨h1, h2⟩
  cases hdeg with
  | inl h => rw [h] at h1; cases h1
  | inr h => exact absurd h2 (not_le.2 h)

theorem anomaly_bounds {skl : Bool} {scorer : Scorer} {d : Dataset} {anom : List ℚ}
    {warns : List String}
    (hA : anomalyStage skl scorer d = AnomalyOutcome.set anom warns) :
    ∀ a ∈ anom, 0 ≤ a ∧ a ≤ 1 := by
  unfold anomalyStage at hA
  split at hA
  · split at hA
    · rename_i scores heq
      split at hA
      · injection hA with hA1 hA2
        subst hA1
        intro a ha
        obtain ⟨s, hs, rfl⟩ := List.mem_map.1 ha
        have hmin : minQ scores ≤ s := minQ_le hs
        have hmax : s ≤ maxQ scores := le_maxQ hs
        have h2 := eps_pos
        have hd : 0 < maxQ scores - minQ scores + eps := by
          have h1 : (0 : ℚ) ≤ maxQ scores - minQ scores := sub_nonneg.2 (hmin.trans hmax)
          linarith
        constructor
        · exact div_nonneg (sub_nonneg.2 hmin) hd.le
        · rw [div_le_one hd]
          linarith
      · cases hA
    · cases hA
  · injection hA with hA1 hA2
    subst hA1
    intro a ha
    obtain ⟨_, _, rfl⟩ := List.mem_map.1 ha
    exact ⟨le_refl 0, by norm_num⟩

theorem assemble_anomaly (p : Policy) (d : Dataset) (metric : String) (topN : ℕ)
    (anomaly : List ℚ) (warns : List String) :
    (assemble p d metric topN anomaly warns).anomaly = anomaly := rfl

theorem assemble_impact (p : Policy) (d : Dataset) (metric : String) (topN : ℕ)
    (anomaly : List ℚ) (warns : List String) :
    (assemble p d metric topN anomaly warns).impact = impactStage d metric := rfl

theorem assemble_score (p : Policy) (d : Dataset) (metric : String) (topN : ℕ)
    (anomaly : List ℚ) (warns : List String) :
    (assemble p d metric topN anomaly warns).score =
      scoreStage p anomaly (impactStage d metric) := rfl

theorem assemble_warnings (p : Policy) (d : Dataset) (metric : String) (topN : ℕ)
    (anomaly : List ℚ) (warns : List String) :
    (assemble p d metric topN anomaly warns).warnings = warns := rfl

theorem scoreStage_zero (p : Policy) (impact : List Val) :
    scoreStage p (List.replicate impact.length 0) impact =
      impact.map (fun ip => vmul (some (wImpact p)) (vabs ip)) := by
  unfold scoreStage
  rw [zipWith_replicate_right]
  congr 1
  funext ip
  cases ip with
  | none => simp [vadd, vmul, vabs]
  | some q => simp [vadd, vmul, vabs]

theorem runPipeline_done_inv {skl : Bool} {scorer : Scorer} {d : Dataset} {metric : String}
    {topN : ℕ} {p : Policy} {out : RunOutput}
    (h : runPipeline skl scorer d metric topN p = RunResult.done out) :
    ∃ anomaly warns, anomalyStage skl scorer d = AnomalyOutcome.set anomaly warns ∧
      out = assemble p d metric topN anomaly warns := by
  unfold runPipeline at h
  split at h
  · cases h
  · split at h
    · cases h
    · cases h
    · injection h with h1
      exact ⟨_, _, by assumption, h1.symm⟩

/-! ## Claim theorems -/

/-- C1: the claim states that for every Policy with non-empty
`constraints.disallow` no produced proposal has an action kind in the
disallow set (a hard filter).  The engine never reads `constraints.disallow`,
so the claim fails on the code: with `disallow = [draft_task]` and the default
actions, a `draft_task` proposal is still emitted for the actionable rows of
`dPair`. -/
theorem c1_disallow_not_a_filter :
    polDisallowTask.disallow = ["draft_task"] ∧
    "draft_task" ∈ (runPipeline false noScorer dPair "m" 5 polDisallowTask).kindsOf := by
  decide

/-- C2 (counterexample): an actionable row (absolute impact proxy far above
the minimum) whose requested actions contain no recognised kind receives zero
proposals, not the single observation-only proposal the claim demands. -/
theorem c2_counterexample :
    vge (vabs ((runPipeline false noScorer dPair "m" 5 polUnrecognized).outD.impact.getD 0 none))
      (impactMin polUnrecognized) = true ∧
    (runPipeline false noScorer dPair "m" 5 polUnrecognized).outD.proposals =
      [(0, []), (1, [])] := by
  decide

/-- C2 (amended): for a selected row that is actionable but whose actions
contain neither `draft_alert` nor `draft_task`, the Decision Drafter emits
zero proposals, and no error; the observation-only proposal is reserved for
rows below the impact minimum. -/
theorem c2_empty_actions_zero_proposals (p : Policy) (ip : Val)
    (hact : vge (vabs ip) (impactMin p) = true)
    (ha : (actionsOf p).contains "draft_alert" = false)
    (ht : (actionsOf p).contains "draft_task" = false) :
    draftProposals p ip = [] := by
  simp at ha ht
  simp [draftProposals, hact, ha, ht]

/-- C2 witness: the amended statement at a concrete actionable input. -/
theorem c2_witness : draftProposals polUnrecognized (some 1) = [] :=
  c2_empty_actions_zero_proposals polUnrecognized (some 1) (by decide) (by decide) (by decide)

/-- C3: the claim states a fit/score failure is degraded to all-zero anomaly
scores with a warning and the run continues.  In the code the exception
handler only warns and never assigns `df[anomaly_score]`, so the score
computation of line 101 raises `KeyError` and the whole run aborts. -/
theorem c3_scoring_failure_aborts_run (scorer : Scorer) (d : Dataset) (metric : String)
    (topN : ℕ) (p : Policy) (e : String)
    (hc : d.cols.isEmpty = false)
    (hn : 20 ≤ d.rows.length)
    (hf : runScorer scorer d = Except.error e) :
    runPipeline true scorer d metric topN p = RunResult.crashed keyErrorMsg := by
  simp [runPipeline, anomalyStage, hc, hn, hf]

/-- C3 witness: a concrete twenty-row dataset with the capability available
and a raising scorer aborts with the KeyError. -/
theorem c3_witness :
    runPipeline true noScorer dTwenty "m" 5 emptyPolicy = RunResult.crashed keyErrorMsg :=
  c3_scoring_failure_aborts_run noScorer dTwenty "m" 5 emptyPolicy "sklearn unavailable"
    (by decide) (by decide) rfl

/-- C4: on the degraded path (capability unavailable or fewer than 20 rows)
the run completes, every row gets anomaly score exactly 0, and the composite
score reduces to `weight_impact * abs impact_proxy` for every row. -/
theorem c4_degraded_zero_scores (skl : Bool) (scorer : Scorer) (d : Dataset) (metric : String)
    (topN : ℕ) (p : Policy)
    (hc : d.cols.isEmpty = false)
    (hdeg : skl = false ∨ d.rows.length < 20) :
    ∃ out, runPipeline skl scorer d metric topN p = RunResult.done out ∧
      out.anomaly = List.replicate d.rows.length 0 ∧
      out.score = out.impact.map (fun ip => vmul (some (wImpact p)) (vabs ip)) := by
  have hA := anomalyStage_degraded scorer d hdeg
  refine ⟨assemble p d metric topN (d.rows.map (fun _ => 0)) [degradedInfo], ?_, ?_, ?_⟩
  · simp [runPipeline, hc, hA]
  · rw [assemble_anomaly, map_const_zero]
  · rw [assemble_score, assemble_impact, map_const_zero, ← impactStage_length d metric]
    exact scoreStage_zero p (impactStage d metric)

/-- C4 witness: the degraded run on the two-row dataset. -/
theorem c4_witness :
    ∃ out, runPipeline false noScorer dPair "m" 5 emptyPolicy = RunResult.done out ∧
      out.anomaly = List.replicate dPair.rows.length 0 ∧
      out.score = out.impact.map (fun ip => vmul (some (wImpact emptyPolicy)) (vabs ip)) :=
  c4_degraded_zero_scores false noScorer dPair "m" 5 emptyPolicy (by decide) (Or.inl rfl)

/-- C5: on every completed run the composite score column is exactly
`weight_impact * abs impact_proxy + weight_confidence * anomaly_score`
rowwise, and an omitted ranking weight defaults to 0.7 and 0.3. -/
theorem c5_score_formula (skl : Bool) (scorer : Scorer) (d : Dataset) (metric : String)
    (topN : ℕ) (p : Policy) (out : RunOutput)
    (h : runPipeline skl scorer d metric topN p = RunResult.done out) :
    out.score = List.zipWith
        (fun ip a => vadd (vmul (some (wImpact p)) (vabs ip)) (some (wConf p * a)))
        out.impact out.anomaly ∧
    (p.wImpact? = none → wImpact p = 7 / 10) ∧
    (p.wConf? = none → wConf p = 3 / 10) := by
  obtain ⟨anom, warns, hA, rfl⟩ := runPipeline_done_inv h
  refine ⟨?_, fun h1 => by simp [wImpact, h1], fun h2 => by simp [wConf, h2]⟩
  rw [assemble_score, assemble_impact, assemble_anomaly]
  rfl

/-- C5 witness: the formula and the defaults at a concrete completed run. -/
theorem c5_witness :
    (runPipeline false noScorer dPair "m" 5 emptyPolicy).outD.score = List.zipWith
        (fun ip a => vadd (vmul (some (wImpact emptyPolicy)) (vabs ip))
          (some (wConf emptyPolicy * a)))
        (runPipeline false noScorer dPair "m" 5 emptyPolicy).outD.impact
        (runPipeline false noScorer dPair "m" 5 emptyPolicy).outD.anomaly ∧
    (emptyPolicy.wImpact? = none → wImpact emptyPolicy = 7 / 10) ∧
    (emptyPolicy.wConf? = none → wConf emptyPolicy = 3 / 10) :=
  c5_score_formula false noScorer dPair "m" 5 emptyPolicy
    ((runPipeline false noScorer dPair "m" 5 emptyPolicy).outD) (by decide)

/-- C7: with the metric column present and all its values present, the impact
proxy of each row is `(value - baseline) / (abs baseline + 1e-9)`, where the
baseline is the median of the column, falling back to the median of the
absolute values plus epsilon when that median is exactly 0; and with the
metric column absent every impact proxy is 0.0 without error. -/
theorem c7_impact_formula (d : Dataset) (metric : String) (qs : List ℚ)
    (hne : qs ≠ [])
    (hcol : d.col? metric = some (qs.map some)) :
    impactStage d metric =
      qs.map (fun v => some ((v - baseQ qs) / (|baseQ qs| + eps))) ∧
    ∀ (d2 : Dataset) (m2 : String), d2.col? m2 = none →
      impactStage d2 m2 = List.replicate d2.rows.length (some 0) :=
  ⟨impactStage_map_some hne hcol, fun d2 m2 h2 => by
    unfold impactStage
    rw [h2]⟩

/-- C7 witness: the formula at the two-row dataset. -/
theorem c7_witness :
    impactStage dPair "m" =
      [(0 : ℚ), 10].map (fun v => some ((v - baseQ [0, 10]) / (|baseQ [0, 10]| + eps))) ∧
    ∀ (d2 : Dataset) (m2 : String), d2.col? m2 = none →
      impactStage d2 m2 = List.replicate d2.rows.length (some 0) :=
  c7_impact_formula dPair "m" [0, 10] (by decide) (by decide)

/-- C8 (counterexample): a Policy carrying a negative ranking weight is not
replaced by the fully-default Policy and no validation warning is surfaced:
the run with the malformed policy completes, differs from the run with the
default policy, and its only surfaced message is the degraded-path info. -/
theorem c8_counterexample :
    runPipeline false noScorer dPair "m" 5 polNegWeight ≠
      runPipeline false noScorer dPair "m" 5 emptyPolicy ∧
    (runPipeline false noScorer dPair "m" 5 polNegWeight).outD.warnings = [degradedInfo] := by
  decide

/-- C8 (amended): the engine performs no validation of Policy values at all:
whatever ranking weights the policy carries (including negative ones) are
used as-is in the composite score, there is no fallback to the default Policy
and no configuration warning, and scoring completes; only an unparseable
policy document yields the empty policy whose every lookup takes the
defaults. -/
theorem c8_no_validation (scorer : Scorer) (d : Dataset) (metric : String)
    (topN : ℕ) (p : Policy)
    (hc : d.cols.isEmpty = false) :
    ∃ out, runPipeline false scorer d metric topN p = RunResult.done out ∧
      out.score = List.zipWith
        (fun ip a => vadd (vmul (some (wImpact p)) (vabs ip)) (some (wConf p * a)))
        out.impact out.anomaly ∧
      out.warnings = [degradedInfo] := by
  have hA := anomalyStage_degraded scorer d (Or.inl rfl)
  refine ⟨assemble p d metric topN (d.rows.map (fun _ => 0)) [degradedInfo], ?_, ?_, rfl⟩
  · simp [runPipeline, hc, hA]
  · rw [assemble_score, assemble_impact, assemble_anomaly]
    rfl

/-- C8 witness: the amended statement at the policy with a negative weight. -/
theorem c8_witness :
    ∃ out, runPipeline false noScorer dPair "m" 5 polNegWeight = RunResult.done out ∧
      out.score = List.zipWith
        (fun ip a => vadd (vmul (some (wImpact polNegWeight)) (vabs ip))
          (some (wConf polNegWeight * a)))
        out.impact out.anomaly ∧
      out.warnings = [degradedInfo] :=
  c8_no_validation noScorer dPair "m" 5 polNegWeight (by decide)

/-- C9 (counterexample): a dataset with one numeric column that is entirely
missing completes on the degraded path with a NaN composite score: the median
of an all-missing column is NaN, `fillna` and the impact formula propagate
it, so the score is not a finite value. -/
theorem c9_counterexample :
    runPipeline false noScorer dMissing "m" 5 emptyPolicy =
      RunResult.done ((runPipeline false noScorer dMissing "m" 5 emptyPolicy).outD) ∧
    (runPipeline false noScorer dMissing "m" 5 emptyPolicy).outD.score = [none] := by
  decide

/-- C9 (amended): on every completed run whose metric column (when present)
has no missing entries, and for non-negative ranking weights, every anomaly
score lies in [0, 1] and every composite score is a present (non-NaN) value,
non-negative and bounded by
`weight_impact * (largest absolute impact proxy) + weight_confidence`. -/
theorem c9_bounded_scores (skl : Bool) (scorer : Scorer) (d : Dataset)
    (metric : String) (topN : ℕ) (p : Policy) (out : RunOutput)
    (h : runPipeline skl scorer d metric topN p = RunResult.done out)
    (hm : ((d.col? metric).getD []).all Option.isSome = true)
    (hwI : 0 ≤ wImpact p) (hwC : 0 ≤ wConf p) :
    (∀ a ∈ out.anomaly, 0 ≤ a ∧ a ≤ 1) ∧
    ∀ s ∈ out.score, ∃ q, s = some q ∧ 0 ≤ q ∧
      q ≤ wImpact p * impactCap out + wConf p := by
  obtain ⟨anom, warns, hA, rfl⟩ := runPipeline_done_inv h
  have hanom := anomaly_bounds hA
  refine ⟨by rw [assemble_anomaly]; exact hanom, ?_⟩
  intro s hs
  rw [assemble_score] at hs
  unfold scoreStage at hs
  obtain ⟨ip, a, hip, ha, rfl⟩ := mem_zipWith hs
  obtain ⟨q, rfl⟩ := impact_present hm ip hip
  obtain ⟨ha0, ha1⟩ := hanom a ha
  refine ⟨wImpact p * |q| + wConf p * a, by simp [vadd, vmul, vabs], ?_, ?_⟩
  · exact add_nonneg (mul_nonneg hwI (abs_nonneg q)) (mul_nonneg hwC ha0)
  · have hq : q ∈ ((assemble p d metric topN anom warns).impact).filterMap id := by
      rw [assemble_impact]
      exact List.mem_filterMap.2 ⟨some q, hip, rfl⟩
    have hcap : |q| ≤ impactCap (assemble p d metric topN anom warns) :=
      le_maxQ (List.mem_map_of_mem (fun q => |q|) hq)
    calc wImpact p * |q| + wConf p * a
        ≤ wImpact p * impactCap (assemble p d metric topN anom warns) + wConf p * 1 :=
          add_le_add (mul_le_mul_of_nonneg_left hcap hwI) (mul_le_mul_of_nonneg_left ha1 hwC)
      _ = wImpact p * impactCap (assemble p d metric topN anom warns) + wConf p := by
          rw [mul_one]

/-- C9 witness: the amended bounds at a completed twenty-row preferred-path
run. -/
theorem c9_witness :
    (∀ a ∈ (runPipeline true sumScorer dTwenty "m" 5 emptyPolicy).outD.anomaly,
      0 ≤ a ∧ a ≤ 1) ∧
    ∀ s ∈ (runPipeline true sumScorer dTwenty "m" 5 emptyPolicy).outD.score, ∃ q,
      s = some q ∧ 0 ≤ q ∧
      q ≤ wImpact emptyPolicy *
            impactCap (runPipeline true sumScorer dTwenty "m" 5 emptyPolicy).outD +
          wConf emptyPolicy :=
  c9_bounded_scores true sumScorer dTwenty "m" 5 emptyPolicy
    ((runPipeline true sumScorer dTwenty "m" 5 emptyPolicy).outD)
    (by decide) (by decide) (by decide) (by decide)

/-- C10: for an actionable row whose actions contain both recognised kinds,
the drafter emits the alert proposal first and the task proposal second,
whatever the order in the actions list, and entries of any other kind
contribute no proposal (the output is exactly these two). -/
theorem c10_drafter_order (p : Policy) (ip : Val)
    (hact : vge (vabs ip) (impactMin p) = true)
    (ha : (actionsOf p).contains "draft_alert" = true)
    (ht : (actionsOf p).contains "draft_task" = true) :
    draftProposals p ip =
      [⟨"draft_alert", alertText⟩, ⟨"draft_task", taskText⟩] := by
  simp at ha ht
  simp [draftProposals, hact, ha, ht]

/-- C10 witness: a policy listing `draft_task` first and an unknown kind in
between still yields alert before task and nothing for the unknown kind. -/
theorem c10_witness :
    draftProposals polMixedActions (some 1) =
      [⟨"draft_alert", alertText⟩, ⟨"draft_task", taskText⟩] :=
  c10_drafter_order polMixedActions (some 1) (by decide) (by decide) (by decide)

end BIAgent
